import Mathlib

/-!
Verification of the nps-workers cache-and-reconciliation layer.

This file gives a shallow embedding of the SQLite-backed cache module
(src/nps_cache.py, class NPSCache), the reconciliation coordinator
(src/nps_sync.py, class NPSSync) and the salary derivation of
src/nps_workers.py (function main), and proves the stated properties
about them.

Modelling conventions:
- SQLite tables become Lean lists of structure values; the AUTOINCREMENT
  id columns that the code actually reads back (sync_log.id) are kept as
  explicit counters in the state.  The api_cache id column is never read
  by any code path and is omitted.
- Timestamps (CURRENT_TIMESTAMP, datetime.now()) become a Nat parameter
  `now` threaded through each operation; expires_hours counts in the
  same units.
- Python dict.get on the camelCase request payload becomes a structure
  of Option fields (WorkplaceData).
- The cryptographic hash hashlib.sha256(...).hexdigest() is an opaque
  pure function, passed as an explicit parameter `hashFn`; every proved
  property holds for an arbitrary such function.
- Fallible SQL paths return Except; an error result models the sqlite
  transaction on the main connection never being committed, i.e. rolled
  back, so the caller keeps the prior state (run_set below).
- _log_sync_operation opens a SECOND connection to the same database
  file while the calling connection still holds an uncommitted write
  transaction (python sqlite3 begins a deferred transaction at the
  first DML statement, and the INSERT OR REPLACE / DELETE has already
  run).  sqlite then refuses the second write: the inner insert times
  out and raises OperationalError database is locked, for insert,
  update and even a delete that removes no rows.  The Bool parameter
  lockContention keeps this explicit: true is the real behaviour of
  the program, false the lock-free behaviour the code assumes and the
  repository test suite asserts.
- Python float arithmetic is modelled by exact rationals; the literal
  0.09 is the rational 9/100.  True division (Python /) is rational
  division, never integer division.
-/

/-- Status values of the sync_status columns: pending, synced, error. -/
inductive SyncStatus
  | pending
  | synced
  | error
  deriving DecidableEq

/-- The three mutating operations accepted by set_workplace_cache.  The
source compares strings; all call sites pass one of these three. -/
inductive OpKind
  | insert
  | update
  | delete
  deriving DecidableEq

/-- Errors surfaced by the sqlite layer in the modelled paths. -/
inductive SqlError
  | notNullViolation (column : String)
  | databaseLocked
  deriving DecidableEq

/-- The camelCase payload dict handed to set_workplace_cache /
save_workplace_data; .get of a missing key is none. -/
structure WorkplaceData where
  seq : Option String
  wkplNm : Option String
  bzowrRgstNo : Option String
  dataCrtYm : Option String
  wkplRoadNmDtlAddr : Option String
  jnngpCnt : Option Int
  crrmmNtcAmt : Option Int
  avgMonthlySalary : Option ℚ
  nwAcqzrCnt : Option Int
  lssJnngpCnt : Option Int
  deriving DecidableEq

/-- A row of the workplace_cache table.  seq and wkpl_nm are NOT NULL;
the remaining data columns are nullable. -/
structure WorkplaceRow where
  id : Nat
  seq : String
  wkpl_nm : String
  bzowr_rgst_no : Option String
  data_crt_ym : Option String
  wkpl_road_nm_dtl_addr : Option String
  jnngp_cnt : Option Int
  crrmm_ntc_amt : Option Int
  avg_monthly_salary : Option ℚ
  nw_acqzr_cnt : Option Int
  lss_jnngp_cnt : Option Int
  created_at : Nat
  updated_at : Nat
  last_accessed : Nat
  access_count : Nat
  sync_status : SyncStatus
  deriving DecidableEq

/-- A row of the sync_log table (the change ledger).  record_id is NOT
NULL.  data_before stores the serialized prior row, data_after the
serialized incoming payload. -/
structure SyncLogEntry where
  id : Nat
  table_name : String
  operation : OpKind
  record_id : String
  data_before : Option WorkplaceRow
  data_after : Option WorkplaceData
  sync_status : SyncStatus
  error_message : Option String
  created_at : Nat
  synced_at : Option Nat
  deriving DecidableEq

/-- A row of the api_cache table.  request_hash is UNIQUE. -/
structure ApiCacheRow where
  request_hash : String
  api_type : String
  request_params : String
  response_data : String
  created_at : Nat
  expires_at : Option Nat
  last_accessed : Nat
  access_count : Nat
  deriving DecidableEq

/-- The whole sqlite database file: the three tables plus the
autoincrement counters the code observes. -/
structure CacheState where
  api_cache : List ApiCacheRow
  workplace : List WorkplaceRow
  sync_log : List SyncLogEntry
  next_workplace_id : Nat
  next_log_id : Nat
  deriving DecidableEq

/-! ### Fingerprinting (generate_request_hash) -/

/-- Ordering used by Python sorted on (key, value) tuples: lexicographic,
key first.  Dict keys are unique, so the value component never decides
the order on real inputs; it is kept to make the relation antisymmetric. -/
def paramLE (a b : String × Int) : Prop :=
  a.1 < b.1 ∨ (a.1 = b.1 ∧ a.2 ≤ b.2)

instance : DecidableRel paramLE := fun a b =>
  inferInstanceAs (Decidable (a.1 < b.1 ∨ (a.1 = b.1 ∧ a.2 ≤ b.2)))

instance : IsTotal (String × Int) paramLE := by
  constructor
  intro a b
  rcases lt_trichotomy a.1 b.1 with h | h | h
  · exact Or.inl (Or.inl h)
  · rcases le_total a.2 b.2 with h2 | h2
    · exact Or.inl (Or.inr ⟨h, h2⟩)
    · exact Or.inr (Or.inr ⟨h.symm, h2⟩)
  · exact Or.inr (Or.inl h)

instance : IsTrans (String × Int) paramLE := by
  constructor
  intro a b c hab hbc
  rcases hab with h1 | ⟨h1, h1v⟩
  · rcases hbc with h2 | ⟨h2, _⟩
    · exact Or.inl (h1.trans h2)
    · exact Or.inl (h2 ▸ h1)
  · rcases hbc with h2 | ⟨h2, h2v⟩
    · exact Or.inl (h1 ▸ h2)
    · exact Or.inr ⟨h1.trans h2, h1v.trans h2v⟩

instance : IsAntisymm (String × Int) paramLE := by
  constructor
  intro a b hab hba
  rcases hab with h1 | ⟨h1, h1v⟩
  · rcases hba with h2 | ⟨h2, _⟩
    · exact absurd h2 (lt_asymm h1)
    · exact absurd h1 (h2 ▸ lt_irrefl b.1)
  · rcases hba with h2 | ⟨_, h2v⟩
    · exact absurd h2 (h1 ▸ lt_irrefl a.1)
    · exact Prod.ext h1 (le_antisymm h1v h2v)

/-- Python sorted(params.items()): the unique paramLE-sorted permutation. -/
def sort_params (params : List (String × Int)) : List (String × Int) :=
  List.insertionSort paramLE params

/-- json.dumps of one (key, value) pair inside the sorted list. -/
def json_of_pair (p : String × Int) : String :=
  "[\"" ++ p.1 ++ "\", " ++ toString p.2 ++ "]"

/-- json.dumps(sorted_params, sort_keys=True) on the list of pairs
(sort_keys only affects nested dicts, of which there are none). -/
def serialize_params (l : List (String × Int)) : String :=
  "[" ++ String.intercalate ", " (l.map json_of_pair) ++ "]"

/-- json.dumps(params) on the raw dict, insertion order preserved. -/
def serialize_params_dict (l : List (String × Int)) : String :=
  "\x7b" ++ String.intercalate ", " (l.map (fun p => "\"" ++ p.1 ++ "\": " ++ toString p.2)) ++ "\x7d"

/-- The pre-hash canonical string of generate_request_hash:
f-string of api_type, a colon, and the canonical serialization. -/
def param_string (api_type : String) (params : List (String × Int)) : String :=
  api_type ++ ":" ++ serialize_params (sort_params params)

/-- generate_request_hash: sha256 hexdigest of param_string.  The hash
itself is the opaque pure function hashFn. -/
def generate_request_hash (hashFn : String → String) (api_type : String)
    (params : List (String × Int)) : String :=
  hashFn (param_string api_type params)

/-! ### api_cache operations -/

/-- The WHERE clause of get_api_cache: request_hash matches and
(expires_at IS NULL OR expires_at > now). -/
def api_row_live (h : String) (now : Nat) (r : ApiCacheRow) : Bool :=
  decide (r.request_hash = h) &&
    (match r.expires_at with
     | none => true
     | some e => decide (now < e))

/-- get_api_cache: look up by fingerprint treating passed expiry as a
miss; on a hit bump access_count and last_accessed of the matching row
and return the stored response, otherwise return none and leave the
state untouched (the expired row is not deleted). -/
def get_api_cache (hashFn : String → String) (s : CacheState) (api_type : String)
    (params : List (String × Int)) (now : Nat) : Option String × CacheState :=
  let h := generate_request_hash hashFn api_type params
  match s.api_cache.find? (api_row_live h now) with
  | some r =>
    (some r.response_data,
     { s with api_cache := s.api_cache.map (fun x =>
         if x.request_hash = h
         then { x with access_count := x.access_count + 1, last_accessed := now }
         else x) })
  | none => (none, s)

/-- set_api_cache: INSERT OR REPLACE keyed by the UNIQUE request_hash.
The replacement row takes the column defaults for the omitted columns
(created_at = now, access_count restated to 1); expires_at is always the
finite now + expires_hours, and the caller-absent ttl is the declared
default 24. -/
def set_api_cache (hashFn : String → String) (s : CacheState) (api_type : String)
    (params : List (String × Int)) (response_data : String)
    (expires_hours : Nat) (now : Nat) : CacheState :=
  let h := generate_request_hash hashFn api_type params
  { s with api_cache :=
      { request_hash := h
        api_type := api_type
        request_params := serialize_params_dict params
        response_data := response_data
        created_at := now
        expires_at := some (now + expires_hours)
        last_accessed := now
        access_count := 1 } :: s.api_cache.filter (fun x => !(decide (x.request_hash = h))) }

/-- A sequence of arbitrary get_api_cache calls (kind, params, time),
keeping only their side effects on the state. -/
def apply_gets (hashFn : String → String) (s : CacheState)
    (gets : List (String × List (String × Int) × Nat)) : CacheState :=
  gets.foldl (fun st g => (get_api_cache hashFn st g.1 g.2.1 g.2.2).2) s

/-! ### workplace_cache operations and the ledger append -/

/-- SELECT * FROM workplace_cache WHERE seq = q (first match). -/
def lookup_workplace (s : CacheState) (q : String) : Option WorkplaceRow :=
  s.workplace.find? (fun r => decide (r.seq = q))

/-- The pre-mutation row fetched by set_workplace_cache; a None seq
matches no row (SQL NULL comparison). -/
def existing_row (s : CacheState) (seq? : Option String) : Option WorkplaceRow :=
  match seq? with
  | none => none
  | some q => lookup_workplace s q

/-- The fresh row written by INSERT OR REPLACE INTO workplace_cache.
REPLACE deletes any row with the same seq and inserts anew, so the
omitted columns take their defaults again (new id, created_at = now,
access_count = 1) and sync_status is explicitly written as pending. -/
def new_workplace_row (s : CacheState) (wd : WorkplaceData) (q nm : String)
    (now : Nat) : WorkplaceRow :=
  { id := s.next_workplace_id
    seq := q
    wkpl_nm := nm
    bzowr_rgst_no := wd.bzowrRgstNo
    data_crt_ym := wd.dataCrtYm
    wkpl_road_nm_dtl_addr := wd.wkplRoadNmDtlAddr
    jnngp_cnt := wd.jnngpCnt
    crrmm_ntc_amt := wd.crrmmNtcAmt
    avg_monthly_salary := wd.avgMonthlySalary
    nw_acqzr_cnt := wd.nwAcqzrCnt
    lss_jnngp_cnt := wd.lssJnngpCnt
    created_at := now
    updated_at := now
    last_accessed := now
    access_count := 1
    sync_status := SyncStatus.pending }

/-- Source name: _log_sync_operation.  INSERT INTO sync_log with
sync_status pending, executed on a SECOND sqlite connection to the same
database file.  lockContention says whether the calling connection
still holds an uncommitted write transaction at this moment: when it
does, this insert cannot acquire the write lock and, after the busy
timeout, raises OperationalError database is locked, so the append
fails and the exception propagates to the caller.  Only a run without
the outer lock could commit; there the NOT NULL record_id is enforced
(a None record id is an IntegrityError). -/
def log_sync_operation (lockContention : Bool) (s : CacheState) (table_name : String)
    (operation : OpKind) (record_id : Option String)
    (data_before : Option WorkplaceRow) (data_after : Option WorkplaceData)
    (now : Nat) : Except SqlError CacheState :=
  if lockContention then Except.error SqlError.databaseLocked
  else
    match record_id with
    | none => Except.error (SqlError.notNullViolation "sync_log.record_id")
    | some rid =>
      Except.ok
        { s with
          sync_log := s.sync_log ++
            [{ id := s.next_log_id
               table_name := table_name
               operation := operation
               record_id := rid
               data_before := data_before
               data_after := data_after
               sync_status := SyncStatus.pending
               error_message := none
               created_at := now
               synced_at := none }]
          next_log_id := s.next_log_id + 1 }

/-- set_workplace_cache: read the existing row, then for insert/update
do INSERT OR REPLACE (NOT NULL on seq and wkpl_nm) and append the ledger
entry via _log_sync_operation, for delete remove the row by seq and
append the ledger entry.  Both DML statements leave the calling
connection inside an uncommitted write transaction at the moment of the
append, so in the program the append always runs under lock contention
and fails (set_workplace_cache below fixes lockContention = true); the
lock-free run (lockContention = false) is the behaviour the code assumes
and the repository tests assert, kept to state the divergence.  An error
anywhere means the main-connection transaction is never committed,
i.e. nothing of this call is durable. -/
def set_workplace_cacheF (lockContention : Bool) (s : CacheState) (wd : WorkplaceData)
    (operation : OpKind) (now : Nat) : Except SqlError CacheState :=
  let existing := existing_row s wd.seq
  match operation with
  | OpKind.insert | OpKind.update =>
    match wd.seq, wd.wkplNm with
    | some q, some nm =>
      let s1 := { s with
        workplace := new_workplace_row s wd q nm now ::
          s.workplace.filter (fun r => !(decide (r.seq = q)))
        next_workplace_id := s.next_workplace_id + 1 }
      log_sync_operation lockContention s1 "workplace_cache" operation wd.seq existing (some wd) now
    | none, _ => Except.error (SqlError.notNullViolation "workplace_cache.seq")
    | _, none => Except.error (SqlError.notNullViolation "workplace_cache.wkpl_nm")
  | OpKind.delete =>
    let s1 := { s with
      workplace := s.workplace.filter (fun r => !(decide (some r.seq = wd.seq))) }
    log_sync_operation lockContention s1 "workplace_cache" OpKind.delete wd.seq existing none now

/-- set_workplace_cache as the program runs it: the outer write
transaction is open when the second-connection append executes, so the
append is blocked by the lock. -/
def set_workplace_cache (s : CacheState) (wd : WorkplaceData) (operation : OpKind)
    (now : Nat) : Except SqlError CacheState :=
  set_workplace_cacheF true s wd operation now

/-- Run one call keeping the prior state on error: an uncommitted sqlite
transaction is rolled back, so the database content the caller sees is
unchanged. -/
def run_set (lockContention : Bool) (s : CacheState) (wd : WorkplaceData)
    (operation : OpKind) (now : Nat) : CacheState :=
  match set_workplace_cacheF lockContention s wd operation now with
  | Except.ok s1 => s1
  | Except.error _ => s

/-! ### Ledger status updates and the drain -/

/-- UPDATE sync_log SET ... WHERE id = i. -/
def updateById (l : List SyncLogEntry) (i : Nat) (f : SyncLogEntry → SyncLogEntry) :
    List SyncLogEntry :=
  l.map (fun e => if e.id = i then f e else e)

/-- mark_sync_completed: on success set the ledger entry synced with
synced_at = now, re-read its record_id and set that workplace row
synced; on failure set the ledger entry to error with the message and
touch nothing else. -/
def mark_sync_completed (s : CacheState) (sync_id : Nat) (success : Bool)
    (error_message : Option String) (now : Nat) : CacheState :=
  if success then
    match (updateById s.sync_log sync_id
        (fun e => { e with sync_status := SyncStatus.synced, synced_at := some now })).find?
        (fun e => decide (e.id = sync_id)) with
    | some e =>
      { s with
        sync_log := (updateById s.sync_log sync_id
          (fun x => { x with sync_status := SyncStatus.synced, synced_at := some now }))
        workplace := (s.workplace.map (fun r =>
          if r.seq = e.record_id then { r with sync_status := SyncStatus.synced } else r)) }
    | none =>
      { s with sync_log := (updateById s.sync_log sync_id
          (fun x => { x with sync_status := SyncStatus.synced, synced_at := some now })) }
  else
    { s with sync_log := (updateById s.sync_log sync_id
        (fun e => { e with sync_status := SyncStatus.error, error_message := error_message })) }

/-- Ordering of the drain: ORDER BY created_at ASC. -/
def createdLE (a b : SyncLogEntry) : Prop :=
  a.created_at ≤ b.created_at

instance : DecidableRel createdLE := fun a b =>
  inferInstanceAs (Decidable (a.created_at ≤ b.created_at))

instance : IsTotal SyncLogEntry createdLE :=
  ⟨fun a b => Nat.le_total a.created_at b.created_at⟩

instance : IsTrans SyncLogEntry createdLE :=
  ⟨fun _ _ _ h1 h2 => Nat.le_trans h1 h2⟩

/-- get_pending_sync_operations: the pending ledger entries ordered by
created_at ascending. -/
def get_pending_sync_operations (s : CacheState) : List SyncLogEntry :=
  List.insertionSort createdLE
    (s.sync_log.filter (fun e => decide (e.sync_status = SyncStatus.pending)))

/-- One loop body of sync_pending_operations.  applyResult abstracts the
body of the try block up to the remote apply (_sync_to_supabase together
with the json.loads of data_after): none is success, some msg the caught
exception text.  Entries of another table fall through the if with no
status change. -/
def apply_pending_op (applyResult : SyncLogEntry → Option String) (now : Nat)
    (s : CacheState) (op : SyncLogEntry) : CacheState :=
  if op.table_name = "workplace_cache" then
    match applyResult op with
    | none => mark_sync_completed s op.id true none now
    | some msg => mark_sync_completed s op.id false (some msg) now
  else s

/-- sync_pending_operations: snapshot the pending list, bail out when it
is empty or the remote is unreachable, else process every entry in
order, continuing past failures. -/
def sync_pending_operations (connected : Bool)
    (applyResult : SyncLogEntry → Option String) (now : Nat) (s : CacheState) : CacheState :=
  if (get_pending_sync_operations s).isEmpty then s
  else if !connected then s
  else (get_pending_sync_operations s).foldl (apply_pending_op applyResult now) s

/-- save_workplace_data: write to the local cache first; the following
best-effort remote sync (_sync_to_supabase when connected) touches only
the remote database, never calls mark_sync_completed, and swallows its
own exceptions, so the local state is exactly the set_workplace_cache
result whatever the remote outcome. -/
def save_workplace_data (_connected _syncOk : Bool) (s : CacheState)
    (wd : WorkplaceData) (operation : OpKind) (now : Nat) : Except SqlError CacheState :=
  set_workplace_cache s wd operation now

/-! ### Salary derivation (nps_workers.main) -/

/-- The guarded computation of avg_monthly_salary in main: the Python
condition is the truthiness test jnngp_cnt and jnngp_cnt > 0 and
crrmm_ntc_amt, so a notice amount of exactly 0 skips the formula; inside
the guard the value is crrmm / 0.09 / jnngp + 200000 in true (real)
division, modelled exactly over the rationals with 0.09 = 9/100. -/
def compute_avg_monthly_salary (jnngpCnt crrmmNtcAmt : Option Int) : Option ℚ :=
  match jnngpCnt, crrmmNtcAmt with
  | some j, some c =>
    if j ≠ 0 ∧ 0 < j ∧ c ≠ 0 then
      some ((c : ℚ) / (9 / 100) / (j : ℚ) + 200000)
    else none
  | _, _ => none

/-! ### Helper lemmas -/

/-- Sorting by the lexicographic key order sends permuted inputs to the
same list: the sorted permutation is unique for an antisymmetric total
order. -/
theorem sort_params_perm_eq (l1 l2 : List (String × Int)) (h : l1.Perm l2) :
    sort_params l1 = sort_params l2 :=
  List.eq_of_perm_of_sorted
    ((List.perm_insertionSort paramLE l1).trans
      (h.trans (List.perm_insertionSort paramLE l2).symm))
    (List.sorted_insertionSort paramLE l1)
    (List.sorted_insertionSort paramLE l2)

/-- find? by a key commutes with mapping a key-preserving function. -/
theorem find_key_map {α β : Type} [DecidableEq β] (key : α → β) (q : β) (f : α → α)
    (hf : ∀ a, key (f a) = key a) (l : List α) :
    (l.map f).find? (fun a => decide (key a = q)) =
      (l.find? (fun a => decide (key a = q))).map f := by
  induction l with
  | nil => rfl
  | cons a t ih =>
    simp only [List.map_cons, List.find?_cons, hf a]
    by_cases h : key a = q
    · simp [h]
    · simp [h, ih]

/-- Mapping a function that preserves the key and fixes every element
whose key differs from q leaves the not-q filtrate unchanged. -/
theorem filter_not_key_map {α β : Type} [DecidableEq β] (key : α → β) (q : β) (f : α → α)
    (hf : ∀ a, key (f a) = key a) (hne : ∀ a, key a ≠ q → f a = a) (l : List α) :
    (l.map f).filter (fun a => !(decide (key a = q))) =
      l.filter (fun a => !(decide (key a = q))) := by
  induction l with
  | nil => rfl
  | cons a t ih =>
    simp only [List.map_cons, List.filter_cons, hf a]
    by_cases h : key a = q
    · simp [h, ih]
    · simp [h, hne a h, ih]

/-- updateById never changes the id column. -/
theorem updateById_map_id (l : List SyncLogEntry) (i : Nat) (f : SyncLogEntry → SyncLogEntry)
    (hf : ∀ e, (f e).id = e.id) :
    (updateById l i f).map (fun e => e.id) = l.map (fun e => e.id) := by
  induction l with
  | nil => rfl
  | cons a t ih =>
    unfold updateById at ih ⊢
    simp only [List.map_cons]
    rw [ih]
    by_cases h : a.id = i <;> simp [h, hf]

/-- Looking up an id other than the updated one is unaffected. -/
theorem find_updateById_ne (l : List SyncLogEntry) (i j : Nat) (f : SyncLogEntry → SyncLogEntry)
    (hf : ∀ e, (f e).id = e.id) (hij : j ≠ i) :
    (updateById l i f).find? (fun e => decide (e.id = j)) =
      l.find? (fun e => decide (e.id = j)) := by
  have hij2 : ¬ i = j := fun h => hij h.symm
  induction l with
  | nil => rfl
  | cons a t ih =>
    unfold updateById at ih ⊢
    simp only [List.map_cons, List.find?_cons]
    by_cases hai : a.id = i
    · simp [hai, hf, hij2, ih]
    · by_cases haj : a.id = j
      · simp [hai, haj, hij, hij2]
      · simp [hai, haj, ih]

/-- Looking up the updated id finds the transformed entry when ids are
unique in the ledger. -/
theorem find_updateById_eq (l : List SyncLogEntry) (e : SyncLogEntry)
    (f : SyncLogEntry → SyncLogEntry) (hf : ∀ x, (f x).id = x.id)
    (hnd : (l.map (fun x => x.id)).Nodup) (he : e ∈ l) :
    (updateById l e.id f).find? (fun x => decide (x.id = e.id)) = some (f e) := by
  induction l with
  | nil => cases he
  | cons a t ih =>
    rw [List.map_cons, List.nodup_cons] at hnd
    unfold updateById at ih ⊢
    simp only [List.map_cons, List.find?_cons]
    rcases List.mem_cons.mp he with rfl | hmem
    · simp [hf]
    · have hne : a.id ≠ e.id := fun h => hnd.1 (h ▸ List.mem_map.mpr ⟨e, hmem, rfl⟩)
      rw [if_neg hne]
      simp only [decide_eq_false hne]
      exact ih hnd.2 hmem

/-- An entry with a different id survives updateById unchanged. -/
theorem mem_updateById_of_ne (l : List SyncLogEntry) (i : Nat)
    (f : SyncLogEntry → SyncLogEntry) (e : SyncLogEntry) (he : e ∈ l) (hne : e.id ≠ i) :
    e ∈ updateById l i f :=
  List.mem_map.mpr ⟨e, he, by simp [hne]⟩

/-- After a put, the lookup by the same fingerprint hits exactly the
fresh row. -/
theorem set_api_cache_find (hashFn : String → String) (s : CacheState) (kind : String)
    (params : List (String × Int)) (body : String) (hrs now : Nat) :
    (set_api_cache hashFn s kind params body hrs now).api_cache.find?
        (fun x => decide (x.request_hash = generate_request_hash hashFn kind params)) =
      some
        { request_hash := generate_request_hash hashFn kind params
          api_type := kind
          request_params := serialize_params_dict params
          response_data := body
          created_at := now
          expires_at := some (now + hrs)
          last_accessed := now
          access_count := 1 } := by
  unfold set_api_cache
  exact List.find?_cons_of_pos _ (by simp)

/-- After a put, exactly one row carries the written fingerprint. -/
theorem set_api_cache_count (hashFn : String → String) (s : CacheState) (kind : String)
    (params : List (String × Int)) (body : String) (hrs now : Nat) :
    ((set_api_cache hashFn s kind params body hrs now).api_cache.filter
        (fun x => decide (x.request_hash = generate_request_hash hashFn kind params))).length = 1 := by
  unfold set_api_cache
  simp only [List.filter_cons, decide_eq_true_eq]
  have hnil : (s.api_cache.filter
      (fun x => !(decide (x.request_hash = generate_request_hash hashFn kind params)))).filter
      (fun x => decide (x.request_hash = generate_request_hash hashFn kind params)) = [] := by
    rw [List.filter_eq_nil_iff]
    intro a ha
    have := (List.mem_filter.mp ha).2
    simp at this
    simp [this]
  rw [hnil]
  simp

/-- If the first row carrying the fingerprint is dead and fingerprints
are unique, the live lookup of get_api_cache misses. -/
theorem find_live_of_expired (l : List ApiCacheRow) (h : String) (now : Nat)
    (r : ApiCacheRow) (hnd : (l.map (fun x => x.request_hash)).Nodup)
    (hf : l.find? (fun x => decide (x.request_hash = h)) = some r)
    (hdead : api_row_live h now r = false) :
    l.find? (api_row_live h now) = none := by
  induction l with
  | nil => simp at hf
  | cons a t ih =>
    rw [List.map_cons, List.nodup_cons] at hnd
    by_cases hah : a.request_hash = h
    · have hra : r = a := by
        rw [List.find?_cons_of_pos _ (by simp [hah])] at hf
        exact (Option.some_injective _ hf).symm
      rw [List.find?_cons_of_neg _ (by simp [hra ▸ hdead]), List.find?_eq_none]
      intro x hx hlive
      have hxh : x.request_hash = h := by
        have := hlive
        unfold api_row_live at this
        simpa using (Bool.and_elim_left this)
      exact hnd.1 (hah ▸ hxh ▸ List.mem_map.mpr ⟨x, hx, rfl⟩)
    · rw [List.find?_cons_of_neg _ (by simp [hah])] at hf
      have hlf : api_row_live h now a = false := by
        unfold api_row_live
        simp [hah]
      rw [List.find?_cons_of_neg _ (by simp [hlf])]
      exact ih hnd.2 hf

/-- If the first row carrying the fingerprint is live, the live lookup
of get_api_cache finds exactly it. -/
theorem find_live_of_hit (l : List ApiCacheRow) (h : String) (now : Nat)
    (r : ApiCacheRow)
    (hf : l.find? (fun x => decide (x.request_hash = h)) = some r)
    (hlive : api_row_live h now r = true) :
    l.find? (api_row_live h now) = some r := by
  induction l with
  | nil => simp at hf
  | cons a t ih =>
    by_cases hah : a.request_hash = h
    · have hra : r = a := by
        rw [List.find?_cons_of_pos _ (by simp [hah])] at hf
        exact (Option.some_injective _ hf).symm
      rw [hra]
      exact List.find?_cons_of_pos _ (hra ▸ hlive)
    · rw [List.find?_cons_of_neg _ (by simp [hah])] at hf
      have hlf : api_row_live h now a = false := by
        unfold api_row_live
        simp [hah]
      rw [List.find?_cons_of_neg _ (by simp [hlf])]
      exact ih hf

/-- If no row carries the fingerprint, the live lookup misses. -/
theorem find_live_of_none (l : List ApiCacheRow) (h : String) (now : Nat)
    (hf : l.find? (fun x => decide (x.request_hash = h)) = none) :
    l.find? (api_row_live h now) = none := by
  rw [List.find?_eq_none] at hf ⊢
  intro x hx hlive
  apply hf x hx
  unfold api_row_live at hlive
  simpa using (Bool.and_elim_left hlive)

/-- The failure branch of mark_sync_completed spelled out. -/
theorem mark_fail_eq (s : CacheState) (sync_id : Nat) (msg : Option String) (now : Nat) :
    mark_sync_completed s sync_id false msg now =
      { s with sync_log := (updateById s.sync_log sync_id
          (fun e => { e with sync_status := SyncStatus.error, error_message := msg })) } := rfl

/-- The success branch of mark_sync_completed spelled out, given what the
re-read of the entry returns. -/
theorem mark_success_eq (s : CacheState) (sync_id : Nat) (now : Nat) (e : SyncLogEntry)
    (hfind : (updateById s.sync_log sync_id
        (fun x => { x with sync_status := SyncStatus.synced, synced_at := some now })).find?
        (fun x => decide (x.id = sync_id)) = some e) :
    mark_sync_completed s sync_id true none now =
      { s with
        sync_log := (updateById s.sync_log sync_id
          (fun x => { x with sync_status := SyncStatus.synced, synced_at := some now }))
        workplace := (s.workplace.map (fun r =>
          if r.seq = e.record_id then { r with sync_status := SyncStatus.synced } else r)) } := by
  unfold mark_sync_completed
  rw [if_pos rfl, hfind]

/-- The loop body on a failing workplace entry. -/
theorem apply_op_fail (applyResult : SyncLogEntry → Option String) (now : Nat)
    (s : CacheState) (op : SyncLogEntry) (msg : String)
    (ht : op.table_name = "workplace_cache") (ha : applyResult op = some msg) :
    apply_pending_op applyResult now s op = mark_sync_completed s op.id false (some msg) now := by
  unfold apply_pending_op
  rw [if_pos ht, ha]

/-- The loop body on a succeeding workplace entry. -/
theorem apply_op_success (applyResult : SyncLogEntry → Option String) (now : Nat)
    (s : CacheState) (op : SyncLogEntry)
    (ht : op.table_name = "workplace_cache") (ha : applyResult op = none) :
    apply_pending_op applyResult now s op = mark_sync_completed s op.id true none now := by
  unfold apply_pending_op
  rw [if_pos ht, ha]

/-- Membership in the drained pending list gives membership and pending
status in the ledger. -/
theorem mem_of_mem_pending (s : CacheState) (e : SyncLogEntry)
    (h : e ∈ get_pending_sync_operations s) :
    e ∈ s.sync_log ∧ e.sync_status = SyncStatus.pending := by
  unfold get_pending_sync_operations at h
  rw [List.mem_insertionSort] at h
  have := List.mem_filter.mp h
  exact ⟨this.1, of_decide_eq_true this.2⟩

/-! ### Concrete states for witnesses and counterexamples -/

/-- A freshly initialized database. -/
def s0 : CacheState :=
  { api_cache := [], workplace := [], sync_log := [], next_workplace_id := 1, next_log_id := 1 }

/-- A well-formed payload for record T1. -/
def wdT1 : WorkplaceData :=
  { seq := some "T1", wkplNm := some "Acme", bzowrRgstNo := none, dataCrtYm := none,
    wkplRoadNmDtlAddr := none, jnngpCnt := some 10, crrmmNtcAmt := some 1000000,
    avgMonthlySalary := none, nwAcqzrCnt := none, lssJnngpCnt := none }

/-- A payload missing its seq identifier. -/
def wdNoSeq : WorkplaceData :=
  { seq := none, wkplNm := some "Acme", bzowrRgstNo := none, dataCrtYm := none,
    wkplRoadNmDtlAddr := none, jnngpCnt := none, crrmmNtcAmt := none,
    avgMonthlySalary := none, nwAcqzrCnt := none, lssJnngpCnt := none }

/-- Ledger entry E1 (created first, id 1, record S1). -/
def e1c : SyncLogEntry :=
  { id := 1, table_name := "workplace_cache", operation := OpKind.insert, record_id := "S1",
    data_before := none, data_after := none, sync_status := SyncStatus.pending,
    error_message := none, created_at := 10, synced_at := none }

/-- Ledger entry E2 (created second, id 2, record S2). -/
def e2c : SyncLogEntry :=
  { id := 2, table_name := "workplace_cache", operation := OpKind.insert, record_id := "S2",
    data_before := none, data_after := none, sync_status := SyncStatus.pending,
    error_message := none, created_at := 20, synced_at := none }

/-- Workplace row S1, still pending. -/
def r1c : WorkplaceRow :=
  { id := 1, seq := "S1", wkpl_nm := "Alpha", bzowr_rgst_no := none, data_crt_ym := none,
    wkpl_road_nm_dtl_addr := none, jnngp_cnt := none, crrmm_ntc_amt := none,
    avg_monthly_salary := none, nw_acqzr_cnt := none, lss_jnngp_cnt := none,
    created_at := 0, updated_at := 0, last_accessed := 0, access_count := 1,
    sync_status := SyncStatus.pending }

/-- Workplace row S2, still pending. -/
def r2c : WorkplaceRow :=
  { id := 2, seq := "S2", wkpl_nm := "Beta", bzowr_rgst_no := none, data_crt_ym := none,
    wkpl_road_nm_dtl_addr := none, jnngp_cnt := none, crrmm_ntc_amt := none,
    avg_monthly_salary := none, nw_acqzr_cnt := none, lss_jnngp_cnt := none,
    created_at := 0, updated_at := 0, last_accessed := 0, access_count := 1,
    sync_status := SyncStatus.pending }

/-- A database holding rows S1 and S2 and the two pending entries. -/
def s1c : CacheState :=
  { api_cache := [], workplace := [r1c, r2c], sync_log := [e1c, e2c],
    next_workplace_id := 3, next_log_id := 3 }

/-- A remote behaviour that rejects entry id 1 and accepts the rest. -/
def applyRc : SyncLogEntry → Option String :=
  fun e => if e.id = 1 then some "boom" else none

/-! ### C6 -/

/-- C6: generate_request_hash is a deterministic function of apiKind and
the canonically ordered serialization of params: permuting the key-value
pairs never changes the token, and identical inputs always give the same
token, for every hash function. -/
theorem fingerprint_canonical :
    (∀ (hashFn : String → String) (kind : String) (l1 l2 : List (String × Int)),
        l1.Perm l2 →
        generate_request_hash hashFn kind l1 = generate_request_hash hashFn kind l2)
    ∧ (∀ (hashFn : String → String) (kind : String) (l : List (String × Int)),
        generate_request_hash hashFn kind l = generate_request_hash hashFn kind l) := by
  constructor
  · intro hashFn kind l1 l2 h
    unfold generate_request_hash param_string
    rw [sort_params_perm_eq l1 l2 h]
  · intro _ _ _
    rfl

/-- C6 witness: the fingerprint of the two-key mapping written a 1, b 2
is the same written b 2, a 1. -/
theorem fingerprint_canonical_witness :
    generate_request_hash (fun x => x) "kind" [("a", 1), ("b", 2)] =
      generate_request_hash (fun x => x) "kind" [("b", 2), ("a", 1)] :=
  fingerprint_canonical.1 (fun x => x) "kind" [("a", 1), ("b", 2)] [("b", 2), ("a", 1)]
    (List.Perm.swap ("b", 2) ("a", 1) [])

/-! ### C3 -/

/-- C3 counterexample: with subscriberCount 10 and monthlyNoticeAmount
present with value 0, both fields are present and subscriberCount is
positive, yet the code leaves avgMonthlySalary absent — the Python guard
tests the truthiness of crrmm_ntc_amt, not its presence — while the
claimed formula would give 0 / 0.09 / 10 + 200000 = 200000. -/
theorem salary_zero_notice_cex :
    compute_avg_monthly_salary (some 10) (some 0) = none ∧
      compute_avg_monthly_salary (some 10) (some 0) ≠
        some ((0 : ℚ) / (9 / 100) / (10 : ℚ) + 200000) := by
  constructor
  · rfl
  · intro h
    simp [compute_avg_monthly_salary] at h

/-- C3 amended: when subscriberCount is present and positive and
monthlyNoticeAmount is present and nonzero, avgMonthlySalary equals
monthlyNoticeAmount / 0.09 / subscriberCount + 200000 in real (never
integer) division; in every other case, including a present notice
amount equal to zero, it is absent.  In particular subscriberCount 10
with monthlyNoticeAmount 1000000 gives 1000000 / 0.09 / 10 + 200000. -/
theorem salary_derivation :
    (∀ j c : Int, 0 < j → c ≠ 0 →
        compute_avg_monthly_salary (some j) (some c) =
          some ((c : ℚ) / (9 / 100) / (j : ℚ) + 200000))
    ∧ (∀ j c : Int, ¬(0 < j ∧ c ≠ 0) →
        compute_avg_monthly_salary (some j) (some c) = none)
    ∧ (∀ j : Option Int, compute_avg_monthly_salary j none = none)
    ∧ (∀ c : Option Int, compute_avg_monthly_salary none c = none)
    ∧ compute_avg_monthly_salary (some 10) (some 1000000) =
        some ((1000000 : ℚ) / (9 / 100) / (10 : ℚ) + 200000) := by
  refine ⟨?_, ?_, ?_, ?_, ?_⟩
  · intro j c hj hc
    simp only [compute_avg_monthly_salary]
    rw [if_pos ⟨hj.ne', hj, hc⟩]
  · intro j c hnot
    simp only [compute_avg_monthly_salary]
    rw [if_neg]
    intro hcond
    exact hnot ⟨hcond.2.1, hcond.2.2⟩
  · intro j
    cases j <;> rfl
  · intro c
    cases c <;> rfl
  · simp only [compute_avg_monthly_salary]
    rw [if_pos (by norm_num)]
    norm_num

/-- C3 witness: the amended formula evaluated at subscriberCount 10,
monthlyNoticeAmount 1000000. -/
theorem salary_derivation_witness :
    compute_avg_monthly_salary (some 10) (some 1000000) =
      some ((1000000 : ℚ) / (9 / 100) / (10 : ℚ) + 200000) :=
  salary_derivation.1 10 1000000 (by norm_num) (by norm_num)

/-! ### C8 -/

/-- C8: at most one live cache entry per fingerprint: after two puts with
the same kind and params, with any sequence of gets in between, exactly
one row carries the fingerprint and its access_count is 1 (the second
put replaces the prior row and restarts the count). -/
theorem fingerprint_uniqueness :
    ∀ (hashFn : String → String) (s : CacheState) (kind : String)
      (params : List (String × Int)) (body1 body2 : String) (h1 h2 t1 t2 : Nat)
      (gets : List (String × List (String × Int) × Nat)),
      ((set_api_cache hashFn
          (apply_gets hashFn (set_api_cache hashFn s kind params body1 h1 t1) gets)
          kind params body2 h2 t2).api_cache.filter
          (fun x => decide (x.request_hash = generate_request_hash hashFn kind params))).length = 1
      ∧ ((set_api_cache hashFn
          (apply_gets hashFn (set_api_cache hashFn s kind params body1 h1 t1) gets)
          kind params body2 h2 t2).api_cache.find?
          (fun x => decide (x.request_hash = generate_request_hash hashFn kind params))).map
          (fun x => x.access_count) = some 1 := by
  intro hashFn s kind params body1 body2 h1 h2 t1 t2 gets
  constructor
  · exact set_api_cache_count hashFn _ kind params body2 h2 t2
  · rw [set_api_cache_find hashFn _ kind params body2 h2 t2]
    rfl

/-! ### C5 -/

/-- C5 counterexample: a put with ttl 0 at time 0 is not a never-expiring
entry: the get with the same kind and params at the later time 5 is a
miss, not the stored body. -/
theorem ttl_zero_cex :
    (get_api_cache (fun x => x)
        (set_api_cache (fun x => x) s0 "k" [("a", 1)] "body" 0 0) "k" [("a", 1)] 5).1 = none
    ∧ (get_api_cache (fun x => x)
        (set_api_cache (fun x => x) s0 "k" [("a", 1)] "body" 0 0) "k" [("a", 1)] 5).1 ≠
        some "body" := by
  have h1 : (get_api_cache (fun x => x)
      (set_api_cache (fun x => x) s0 "k" [("a", 1)] "body" 0 0) "k" [("a", 1)] 5).1 = none := rfl
  refine ⟨h1, ?_⟩
  rw [h1]
  simp

/-- C5 amended: set_api_cache always stores a finite expiry, so an unset
(never expiring) expiry cannot be produced by a put.  A put with ttl 0
expires immediately: every get with the same kind and params at any time
at or after the put is a miss.  A put with the ttl argument absent uses
the declared default of 24, i.e. expires_at = creation time + 24. -/
theorem ttl_semantics :
    (∀ (hashFn : String → String) (s : CacheState) (kind : String)
        (params : List (String × Int)) (body : String) (t tq : Nat), t ≤ tq →
        (get_api_cache hashFn (set_api_cache hashFn s kind params body 0 t) kind params tq).1 =
          none)
    ∧ (∀ (hashFn : String → String) (s : CacheState) (kind : String)
        (params : List (String × Int)) (body : String) (t : Nat),
        ((set_api_cache hashFn s kind params body 24 t).api_cache.find?
            (fun x => decide (x.request_hash = generate_request_hash hashFn kind params))).map
            (fun x => x.expires_at) = some (some (t + 24))) := by
  constructor
  · intro hashFn s kind params body t tq htq
    unfold get_api_cache
    have hnone : (set_api_cache hashFn s kind params body 0 t).api_cache.find?
        (api_row_live (generate_request_hash hashFn kind params) tq) = none := by
      unfold set_api_cache
      rw [List.find?_cons_of_neg, List.find?_eq_none]
      · intro x hx hlive
        have hxh : x.request_hash = generate_request_hash hashFn kind params := by
          unfold api_row_live at hlive
          simpa using (Bool.and_elim_left hlive)
        have := (List.mem_filter.mp hx).2
        simp [hxh] at this
      · unfold api_row_live
        simp [Nat.not_lt.mpr htq]
    simp only [hnone]
  · intro hashFn s kind params body t
    rw [set_api_cache_find hashFn s kind params body 24 t]
    rfl

/-- C5 amended witness: in the empty store, a put with ttl 0 at time 0
then a get at time 5 misses, and a put with the default ttl stores
expiry 7 + 24. -/
theorem ttl_semantics_witness :
    (get_api_cache (fun x => x)
        (set_api_cache (fun x => x) s0 "k" [("b", 2)] "val" 0 0) "k" [("b", 2)] 5).1 = none
    ∧ ((set_api_cache (fun x => x) s0 "k" [("b", 2)] "val" 24 7).api_cache.find?
        (fun x => decide (x.request_hash = generate_request_hash (fun x => x) "k" [("b", 2)]))).map
        (fun x => x.expires_at) = some (some (7 + 24)) :=
  ⟨ttl_semantics.1 (fun x => x) s0 "k" [("b", 2)] "val" 0 5 (by norm_num),
   ttl_semantics.2 (fun x => x) s0 "k" [("b", 2)] "val" 7⟩

/-! ### C7 -/

/-- C7: a write whose payload lacks seq is rejected with an error — on
insert/update the NOT NULL violation on workplace_cache.seq fires at
the outer statement, on delete the matching-nothing DELETE is followed
by the locked second-connection append — and nothing happens: the
caller keeps the prior state untouched, with no workplace row written
or removed and no ledger entry appended. -/
theorem missing_seq_rejected :
    ∀ (s : CacheState) (wd : WorkplaceData) (op : OpKind) (now : Nat),
      wd.seq = none →
      (∃ err, set_workplace_cache s wd op now = Except.error err)
      ∧ run_set true s wd op now = s := by
  intro s wd op now h
  cases op with
  | insert =>
    cases hn : wd.wkplNm <;>
      simp [run_set, set_workplace_cache, set_workplace_cacheF, log_sync_operation, h, hn]
  | update =>
    cases hn : wd.wkplNm <;>
      simp [run_set, set_workplace_cache, set_workplace_cacheF, log_sync_operation, h, hn]
  | delete =>
    simp [run_set, set_workplace_cache, set_workplace_cacheF, log_sync_operation, h]

/-- C7 witness: the payload without seq is rejected on the empty store
and the store is unchanged. -/
theorem missing_seq_rejected_witness :
    (∃ err, set_workplace_cache s0 wdNoSeq OpKind.insert 3 = Except.error err)
    ∧ run_set true s0 wdNoSeq OpKind.insert 3 = s0 :=
  missing_seq_rejected s0 wdNoSeq OpKind.insert 3 rfl

/-! ### C2 -/

/-- C2 (code bug): the evaluation of a schema-valid mutating call on
the embedded model, at the very input the repository test suite uses
(payload seq T1 / name Acme, operation insert, fresh database).  The
sync_log append runs on a second connection while the outer write
transaction is uncommitted, so the call fails with database is locked;
the transaction is rolled back and nothing is durable: the caller keeps
the unchanged store, with no workplace row and no ledger entry.  The
last conjunct evaluates the same call under the lock-free behaviour the
code assumes (and the tests test_workplace_cache_create and
test_full_workflow assert): it would commit the row together with
exactly one ledger entry whose operation, record_id, before and after
all match the claim, in one logical transaction. -/
theorem ledger_append_locked_bug :
    set_workplace_cache s0 wdT1 OpKind.insert 7 = Except.error SqlError.databaseLocked
    ∧ run_set true s0 wdT1 OpKind.insert 7 = s0
    ∧ (run_set true s0 wdT1 OpKind.insert 7).sync_log = []
    ∧ (run_set true s0 wdT1 OpKind.insert 7).workplace = []
    ∧ set_workplace_cacheF false s0 wdT1 OpKind.insert 7 =
        Except.ok
          { api_cache := []
            workplace := [new_workplace_row s0 wdT1 "T1" "Acme" 7]
            sync_log := [{ id := 1
                           table_name := "workplace_cache"
                           operation := OpKind.insert
                           record_id := "T1"
                           data_before := none
                           data_after := some wdT1
                           sync_status := SyncStatus.pending
                           error_message := none
                           created_at := 7
                           synced_at := none }]
            next_workplace_id := 2
            next_log_id := 2 } := by
  refine ⟨rfl, rfl, rfl, rfl, ?_⟩
  rfl

/-! ### C10 -/

/-- C10 (code bug): save_workplace_data never reaches the point the
claim describes, because its first step, the local set_workplace_cache,
already fails with database is locked; the concrete save of T1 returns
that error, the caller keeps the unchanged store, and the next drain
pass has no pending entry at all to re-apply — instead of the appended,
still-pending ledger entry the claim requires on return. -/
theorem save_locked_bug :
    save_workplace_data true true s0 wdT1 OpKind.insert 7 =
        Except.error SqlError.databaseLocked
    ∧ run_set true s0 wdT1 OpKind.insert 7 = s0
    ∧ get_pending_sync_operations (run_set true s0 wdT1 OpKind.insert 7) = []
    ∧ lookup_workplace (run_set true s0 wdT1 OpKind.insert 7) "T1" = none := by
  refine ⟨rfl, rfl, rfl, rfl⟩

/-! ### C9 -/

/-- C9: get_api_cache semantics, for fingerprint-unique stores (the
UNIQUE constraint of the schema): a missing fingerprint is a miss that
changes nothing; an entry whose expires_at has passed is a miss that
changes nothing (the row is not deleted: the state is untouched); a live
entry is returned and exactly its access_count is bumped by 1 and its
last_accessed refreshed, every other row and table unchanged. -/
theorem get_api_cache_spec :
    ∀ (hashFn : String → String) (s : CacheState) (kind : String)
      (params : List (String × Int)) (now : Nat),
      (s.api_cache.map (fun x => x.request_hash)).Nodup →
      ((s.api_cache.find? (fun x =>
          decide (x.request_hash = generate_request_hash hashFn kind params)) = none →
          get_api_cache hashFn s kind params now = (none, s))
      ∧ (∀ r e, s.api_cache.find? (fun x =>
            decide (x.request_hash = generate_request_hash hashFn kind params)) = some r →
          r.expires_at = some e → e ≤ now →
          get_api_cache hashFn s kind params now = (none, s))
      ∧ (∀ r, s.api_cache.find? (fun x =>
            decide (x.request_hash = generate_request_hash hashFn kind params)) = some r →
          (r.expires_at = none ∨ ∃ e, r.expires_at = some e ∧ now < e) →
          (get_api_cache hashFn s kind params now).1 = some r.response_data
          ∧ (get_api_cache hashFn s kind params now).2.api_cache.find? (fun x =>
              decide (x.request_hash = generate_request_hash hashFn kind params)) =
              some { r with access_count := r.access_count + 1, last_accessed := now }
          ∧ (get_api_cache hashFn s kind params now).2.api_cache.filter (fun x =>
              !(decide (x.request_hash = generate_request_hash hashFn kind params))) =
              s.api_cache.filter (fun x =>
                !(decide (x.request_hash = generate_request_hash hashFn kind params)))
          ∧ (get_api_cache hashFn s kind params now).2.workplace = s.workplace
          ∧ (get_api_cache hashFn s kind params now).2.sync_log = s.sync_log)) := by
  intro hashFn s kind params now hnd
  refine ⟨?_, ?_, ?_⟩
  · intro hf
    have hnone := find_live_of_none s.api_cache
      (generate_request_hash hashFn kind params) now hf
    unfold get_api_cache
    simp only [hnone]
  · intro r e hf hre hen
    have hdead : api_row_live (generate_request_hash hashFn kind params) now r = false := by
      unfold api_row_live
      rw [hre]
      simp [Nat.not_lt.mpr hen]
    have hnone := find_live_of_expired s.api_cache
      (generate_request_hash hashFn kind params) now r hnd hf hdead
    unfold get_api_cache
    simp only [hnone]
  · intro r hf hcond
    have hrh : r.request_hash = generate_request_hash hashFn kind params := by
      have h2 := List.find?_some hf
      simpa using h2
    have hlive : api_row_live (generate_request_hash hashFn kind params) now r = true := by
      unfold api_row_live
      rcases hcond with hnone | ⟨e, he, hlt⟩
      · rw [hnone]
        simp [hrh]
      · rw [he]
        simp [hrh, hlt]
    have hfind := find_live_of_hit s.api_cache
      (generate_request_hash hashFn kind params) now r hf hlive
    have hbump : ∀ a : ApiCacheRow,
        ((fun x => if x.request_hash = generate_request_hash hashFn kind params
            then { x with access_count := x.access_count + 1, last_accessed := now }
            else x) a).request_hash = a.request_hash := by
      intro a
      by_cases hh : a.request_hash = generate_request_hash hashFn kind params <;> simp [hh]
    have hget : get_api_cache hashFn s kind params now =
        (some r.response_data,
         { s with api_cache := (s.api_cache.map (fun x =>
             if x.request_hash = generate_request_hash hashFn kind params
             then { x with access_count := x.access_count + 1, last_accessed := now }
             else x)) }) := by
      unfold get_api_cache
      simp only [hfind]
    rw [hget]
    refine ⟨rfl, ?_, ?_, rfl, rfl⟩
    · show (s.api_cache.map (fun x =>
          if x.request_hash = generate_request_hash hashFn kind params
          then { x with access_count := x.access_count + 1, last_accessed := now }
          else x)).find? (fun x =>
            decide (x.request_hash = generate_request_hash hashFn kind params)) =
        some { r with access_count := r.access_count + 1, last_accessed := now }
      rw [find_key_map (fun x : ApiCacheRow => x.request_hash)
        (generate_request_hash hashFn kind params) _ hbump s.api_cache, hf]
      simp [hrh]
    · show (s.api_cache.map (fun x =>
          if x.request_hash = generate_request_hash hashFn kind params
          then { x with access_count := x.access_count + 1, last_accessed := now }
          else x)).filter (fun x =>
            !(decide (x.request_hash = generate_request_hash hashFn kind params))) =
        s.api_cache.filter (fun x =>
          !(decide (x.request_hash = generate_request_hash hashFn kind params)))
      exact filter_not_key_map (fun x : ApiCacheRow => x.request_hash)
        (generate_request_hash hashFn kind params) _ hbump
        (fun a ha => by simp [ha]) s.api_cache

/-- A single live api_cache row for the witness store. -/
def apiRow1 : ApiCacheRow :=
  { request_hash := generate_request_hash (fun x => x) "k" [("a", 1)]
    api_type := "k"
    request_params := serialize_params_dict [("a", 1)]
    response_data := "body"
    created_at := 0
    expires_at := some 10
    last_accessed := 0
    access_count := 1 }

/-- A store holding exactly apiRow1. -/
def sApi : CacheState :=
  { api_cache := [apiRow1], workplace := [], sync_log := [],
    next_workplace_id := 1, next_log_id := 1 }

/-- C9 witness: the hit case evaluated on the one-row store at time 5:
the stored body comes back, the row access_count goes 1 to 2 with
last_accessed 5, and nothing else changes. -/
theorem get_api_cache_spec_witness :
    (get_api_cache (fun x => x) sApi "k" [("a", 1)] 5).1 = some apiRow1.response_data
    ∧ (get_api_cache (fun x => x) sApi "k" [("a", 1)] 5).2.api_cache.find? (fun x =>
        decide (x.request_hash = generate_request_hash (fun x => x) "k" [("a", 1)])) =
        some { apiRow1 with access_count := apiRow1.access_count + 1, last_accessed := 5 }
    ∧ (get_api_cache (fun x => x) sApi "k" [("a", 1)] 5).2.api_cache.filter (fun x =>
        !(decide (x.request_hash = generate_request_hash (fun x => x) "k" [("a", 1)]))) =
        sApi.api_cache.filter (fun x =>
          !(decide (x.request_hash = generate_request_hash (fun x => x) "k" [("a", 1)])))
    ∧ (get_api_cache (fun x => x) sApi "k" [("a", 1)] 5).2.workplace = sApi.workplace
    ∧ (get_api_cache (fun x => x) sApi "k" [("a", 1)] 5).2.sync_log = sApi.sync_log :=
  (get_api_cache_spec (fun x => x) sApi "k" [("a", 1)] 5 (by decide)).2.2 apiRow1 rfl
    (Or.inr ⟨10, rfl, by norm_num⟩)

/-! ### C4 -/

/-- C4 counterexample: with record S1 pending and its only ledger entry
failing to propagate, the drain leaves the S1 row sync_status pending,
not error: the failure branch of mark_sync_completed updates only
sync_log, never workplace_cache. -/
theorem fail_mark_record_cex :
    (lookup_workplace (sync_pending_operations true applyRc 99 s1c) "S1").map
        (fun r => r.sync_status) = some SyncStatus.pending
    ∧ (lookup_workplace (sync_pending_operations true applyRc 99 s1c) "S1").map
        (fun r => r.sync_status) ≠ some SyncStatus.error := by
  constructor
  · decide
  · decide

/-- C4 amended: when a pending entry of the workplace table fails to
propagate during a drain step, the ledger entry alone transitions to
error with the message stored; the workplace rows, including the record
the entry refers to, are left entirely unchanged (so a pending record
stays pending). -/
theorem fail_mark_leaves_record :
    ∀ (s : CacheState) (applyResult : SyncLogEntry → Option String) (now : Nat)
      (op : SyncLogEntry) (msg : String),
      op.table_name = "workplace_cache" →
      applyResult op = some msg →
      ((apply_pending_op applyResult now s op).workplace = s.workplace
      ∧ ((s.sync_log.map (fun x => x.id)).Nodup → op ∈ s.sync_log →
          (apply_pending_op applyResult now s op).sync_log.find?
            (fun x => decide (x.id = op.id)) =
            some { op with sync_status := SyncStatus.error, error_message := some msg })) := by
  intro s applyResult now op msg ht ha
  rw [apply_op_fail applyResult now s op msg ht ha, mark_fail_eq]
  constructor
  · rfl
  · intro hnd hmem
    exact find_updateById_eq s.sync_log op _ (fun x => rfl) hnd hmem

/-- C4 amended witness: the failing step on the concrete two-entry store
leaves every workplace row as it was and marks entry 1 error. -/
theorem fail_mark_leaves_record_witness :
    (apply_pending_op applyRc 99 s1c e1c).workplace = s1c.workplace
    ∧ (apply_pending_op applyRc 99 s1c e1c).sync_log.find?
        (fun x => decide (x.id = e1c.id)) =
        some { e1c with sync_status := SyncStatus.error, error_message := some "boom" } :=
  ⟨(fail_mark_leaves_record s1c applyRc 99 e1c "boom" rfl rfl).1,
   (fail_mark_leaves_record s1c applyRc 99 e1c "boom" rfl rfl).2 (by decide) (by decide)⟩

/-! ### C1 -/

/-- C1: the drain processes pending entries in createdAt-ascending order
(the pending list is always sorted by created_at), and failures are
isolated per entry: with pending entries E1 then E2 where the remote
apply of E1 fails with some message and that of E2 succeeds, the drain
marks E1 error storing the message, marks E2 synced, and the workplace
record touched by E2 ends with sync_status synced regardless of the E1
failure. -/
theorem drain_order_isolation :
    (∀ s : CacheState, List.Sorted createdLE (get_pending_sync_operations s))
    ∧ (∀ (s : CacheState) (applyResult : SyncLogEntry → Option String) (now : Nat)
        (e1 e2 : SyncLogEntry) (msg : String) (r : WorkplaceRow),
        get_pending_sync_operations s = [e1, e2] →
        (s.sync_log.map (fun x => x.id)).Nodup →
        e1.table_name = "workplace_cache" →
        e2.table_name = "workplace_cache" →
        applyResult e1 = some msg →
        applyResult e2 = none →
        e1.id ≠ e2.id →
        lookup_workplace s e2.record_id = some r →
        ((sync_pending_operations true applyResult now s).sync_log.find?
            (fun x => decide (x.id = e1.id)) =
            some { e1 with sync_status := SyncStatus.error, error_message := some msg }
        ∧ (sync_pending_operations true applyResult now s).sync_log.find?
            (fun x => decide (x.id = e2.id)) =
            some { e2 with sync_status := SyncStatus.synced, synced_at := some now }
        ∧ lookup_workplace (sync_pending_operations true applyResult now s) e2.record_id =
            some { r with sync_status := SyncStatus.synced })) := by
  constructor
  · intro s
    exact List.sorted_insertionSort createdLE _
  · intro s applyResult now e1 e2 msg r hp hnd ht1 ht2 ha1 ha2 hne hr
    have hm1 : e1 ∈ s.sync_log := (mem_of_mem_pending s e1 (by rw [hp]; simp)).1
    have hm2 : e2 ∈ s.sync_log := (mem_of_mem_pending s e2 (by rw [hp]; simp)).1
    have hdrain : sync_pending_operations true applyResult now s =
        apply_pending_op applyResult now (apply_pending_op applyResult now s e1) e2 := by
      unfold sync_pending_operations
      rw [hp]
      rfl
    have hnd1 : ((updateById s.sync_log e1.id
        (fun e => { e with sync_status := SyncStatus.error, error_message := some msg })).map
        (fun x => x.id)).Nodup := by
      rw [updateById_map_id s.sync_log e1.id
        (fun e => { e with sync_status := SyncStatus.error, error_message := some msg })
        (fun e => rfl)]
      exact hnd
    have hm2b : e2 ∈ updateById s.sync_log e1.id
        (fun e => { e with sync_status := SyncStatus.error, error_message := some msg }) :=
      mem_updateById_of_ne s.sync_log e1.id _ e2 hm2 (fun h => hne h.symm)
    have hfind2 : (updateById (updateById s.sync_log e1.id
          (fun e => { e with sync_status := SyncStatus.error, error_message := some msg })) e2.id
          (fun x => { x with sync_status := SyncStatus.synced, synced_at := some now })).find?
          (fun x => decide (x.id = e2.id)) =
        some { e2 with sync_status := SyncStatus.synced, synced_at := some now } :=
      find_updateById_eq _ e2 _ (fun x => rfl) hnd1 hm2b
    have hs1 : apply_pending_op applyResult now s e1 =
        { s with sync_log := (updateById s.sync_log e1.id
            (fun e => { e with sync_status := SyncStatus.error, error_message := some msg })) } := by
      rw [apply_op_fail applyResult now s e1 msg ht1 ha1, mark_fail_eq]
    have hs2 : apply_pending_op applyResult now
        ({ s with sync_log := (updateById s.sync_log e1.id
            (fun e => { e with sync_status := SyncStatus.error, error_message := some msg })) }) e2 =
        { s with
          sync_log := (updateById (updateById s.sync_log e1.id
            (fun e => { e with sync_status := SyncStatus.error, error_message := some msg })) e2.id
            (fun x => { x with sync_status := SyncStatus.synced, synced_at := some now }))
          workplace := (s.workplace.map (fun row =>
            if row.seq = e2.record_id
            then { row with sync_status := SyncStatus.synced } else row)) } := by
      rw [apply_op_success applyResult now _ e2 ht2 ha2]
      exact mark_success_eq _ e2.id now
        { e2 with sync_status := SyncStatus.synced, synced_at := some now } hfind2
    rw [hdrain, hs1, hs2]
    refine ⟨?_, ?_, ?_⟩
    · show (updateById (updateById s.sync_log e1.id
          (fun e => { e with sync_status := SyncStatus.error, error_message := some msg })) e2.id
          (fun x => { x with sync_status := SyncStatus.synced, synced_at := some now })).find?
          (fun x => decide (x.id = e1.id)) =
        some { e1 with sync_status := SyncStatus.error, error_message := some msg }
      rw [find_updateById_ne _ e2.id e1.id
        (fun x => { x with sync_status := SyncStatus.synced, synced_at := some now })
        (fun x => rfl) hne]
      exact find_updateById_eq s.sync_log e1
        (fun e => { e with sync_status := SyncStatus.error, error_message := some msg })
        (fun x => rfl) hnd hm1
    · exact hfind2
    · have hrs : r.seq = e2.record_id := by
        have h2 := List.find?_some hr
        simpa using h2
      have hkey := find_key_map (fun row : WorkplaceRow => row.seq) e2.record_id
        (fun row => if row.seq = e2.record_id
          then { row with sync_status := SyncStatus.synced } else row)
        (fun a => by by_cases hh : a.seq = e2.record_id <;> simp [hh]) s.workplace
      show (s.workplace.map (fun row =>
          if row.seq = e2.record_id
          then { row with sync_status := SyncStatus.synced } else row)).find?
          (fun x => decide (x.seq = e2.record_id)) =
        some { r with sync_status := SyncStatus.synced }
      rw [hkey]
      unfold lookup_workplace at hr
      rw [hr]
      simp [hrs]

/-- C1 witness: on the concrete two-entry store with E1 rejected and E2
accepted, the drain marks entry 1 error with the message, entry 2
synced, and row S2 synced. -/
theorem drain_order_isolation_witness :
    ((sync_pending_operations true applyRc 99 s1c).sync_log.find?
        (fun x => decide (x.id = e1c.id)) =
        some { e1c with sync_status := SyncStatus.error, error_message := some "boom" }
    ∧ (sync_pending_operations true applyRc 99 s1c).sync_log.find?
        (fun x => decide (x.id = e2c.id)) =
        some { e2c with sync_status := SyncStatus.synced, synced_at := some 99 }
    ∧ lookup_workplace (sync_pending_operations true applyRc 99 s1c) e2c.record_id =
        some { r2c with sync_status := SyncStatus.synced }) :=
  drain_order_isolation.2 s1c applyRc 99 e1c e2c "boom" r2c (by decide) (by decide) rfl rfl
    rfl rfl (by decide) (by decide)
